import Mathlib

/-!
Verification development for the `hospital` repository: a shallow embedding of
the patient data model (`app/models/patient.py`), the request/response schemas
(`app/schemas/patient.py`), the service layer (`app/services/patient_service.py`)
and the route handlers (`app/api/endpoints/patients.py`).

Modelling conventions:
* the relational store is a `DB` record holding one list per table, in row
  (insertion/arbitrary) order;
* UUID primary keys are `String`s, SQL timestamps are `Nat` ticks, SQL `DATE`
  is the `HDate` structure below;
* a nullable SQL column is an `Option`; comparing a stored `NULL` with an SQL
  `= :param` predicate yields no match, which the embedding renders as
  `column == some param`;
* PostgreSQL `date_part('year', age(d))` is the number of completed years
  between `d` and the current date, rendered by `ageYears`;
* the legacy SQLAlchemy `Query` used via `db.query(Patient)` deduplicates
  full-entity result rows by primary-key identity when `.all()` is executed;
  `uniquifyBy` renders that final uniquification step.
-/

/-- Calendar date (SQL `DATE`): year, month, day. -/
structure HDate where
  year : Nat
  month : Nat
  day : Nat
deriving DecidableEq

/-- Row of the `patients` table (`class Patient` in `app/models/patient.py`).
Columns without `nullable=False` are `Option`s. -/
structure Patient where
  patient_id : String
  mrn : String
  first_name : String
  middle_name : Option String
  last_name : String
  date_of_birth : HDate
  gender : String
  biological_sex : String
  blood_type : Option String
  ethnicity : Option String
  race : Option String
  preferred_language : Option String
  marital_status : Option String
  occupation : Option String
  created_at : Nat
  updated_at : Nat
  is_deceased : Option Bool
  deceased_date : Option HDate
deriving DecidableEq

/-- Row of `patient_risk_factors` (`class PatientRiskFactor`). -/
structure PatientRiskFactor where
  risk_factor_id : String
  patient_id : String
  factor_name : String
  factor_value : Option String
  factor_type : String
  severity : Option String
  onset_date : Option HDate
  end_date : Option HDate
  is_current : Option Bool
  notes : Option String
deriving DecidableEq

/-- Row of `diagnoses` (`class Diagnosis`). -/
structure Diagnosis where
  diagnosis_id : String
  patient_id : String
  encounter_id : Option String
  icd_code_id : String
  provider_id : Option String
  diagnosis_date : Nat
  diagnosis_type : String
  diagnosis_status : String
  notes : Option String
deriving DecidableEq

/-- Row of `icd_codes` (`class ICDCode`). -/
structure ICDCode where
  icd_code_id : String
  code : String
  description : String
  icd_version : String
  category : Option String
  is_billable : Option Bool
deriving DecidableEq

/-- Row of `patient_contact_info` (`class PatientContactInfo`). -/
structure PatientContactInfo where
  contact_id : String
  patient_id : String
  email : Option String
  phone_primary : Option String
  phone_secondary : Option String
  preferred_contact_method : String
  emergency_contact_name : Option String
  emergency_contact_relation : Option String
  emergency_contact_phone : Option String
  created_at : Nat
  updated_at : Nat
deriving DecidableEq

/-- The relational store: the tables touched by the patient service.  A
`relationship` collection such as `patient.contact_info` is the sublist of the
corresponding table whose `patient_id` foreign key matches, in table order. -/
structure DB where
  patients : List Patient
  risk_factors : List PatientRiskFactor
  diagnoses : List Diagnosis
  icd_codes : List ICDCode
  contact_info : List PatientContactInfo
deriving DecidableEq

/-- The `PatientUpdate` pydantic schema (`PatientBase` fields; `PatientUpdate`
adds nothing).  Optional fields default to `none`, `is_deceased` defaults to
`some false` (`Optional[bool] = False`). -/
structure PatientUpdate where
  mrn : String
  first_name : String
  middle_name : Option String := none
  last_name : String
  date_of_birth : HDate
  gender : String
  biological_sex : String
  blood_type : Option String := none
  ethnicity : Option String := none
  race : Option String := none
  preferred_language : Option String := none
  marital_status : Option String := none
  occupation : Option String := none
  is_deceased : Option Bool := some false
  deceased_date : Option HDate := none
deriving DecidableEq

/-- The `PatientQuery` pydantic schema: every filter field optional. -/
structure PatientQuery where
  age_min : Option Int := none
  age_max : Option Int := none
  gender : Option String := none
  risk_factors : Option (List String) := none
  diagnoses : Option (List String) := none
  ethnicity : Option String := none
  race : Option String := none
  is_deceased : Option Bool := none
deriving DecidableEq

/-- The response schema (`class Patient` in `app/schemas/patient.py`): the
flattened patient summary produced by search and by the CRUD endpoints. -/
structure PatientSummary where
  patient_id : String
  first_name : String
  last_name : String
  email : Option String
  created_at : Nat
  updated_at : Nat
deriving DecidableEq

/-- PostgreSQL `date_part('year', age(dob))`: `age` measures from `current_date`
(passed here as `today`) and its year component is the number of completed
years, i.e. the calendar-year difference minus one when the birthday has not
yet occurred this year. -/
def ageYears (today dob : HDate) : Int :=
  if today.month < dob.month ∨ (today.month = dob.month ∧ today.day < dob.day)
  then (today.year : Int) - (dob.year : Int) - 1
  else (today.year : Int) - (dob.year : Int)

namespace PatientService

/-- `db.query(Patient).filter(Patient.patient_id == patient_id).first()`. -/
def get_patient (db : DB) (patient_id : String) : Option Patient :=
  db.patients.find? (fun p => p.patient_id == patient_id)

/-- Flush-time comparison of the assigned attributes with the stored values:
the SQLAlchemy unit of work compares each value assigned by the `setattr` loop
to the previously saved one and emits an UPDATE only on a net change
(documented `Session.dirty` behavior).  The payload covers exactly the declared
`PatientBase` fields, so these are the compared columns. -/
def payloadMatches (p : Patient) (u : PatientUpdate) : Bool :=
  p.mrn == u.mrn && (p.first_name == u.first_name && (p.middle_name == u.middle_name
  && (p.last_name == u.last_name && (p.date_of_birth == u.date_of_birth
  && (p.gender == u.gender && (p.biological_sex == u.biological_sex
  && (p.blood_type == u.blood_type && (p.ethnicity == u.ethnicity
  && (p.race == u.race && (p.preferred_language == u.preferred_language
  && (p.marital_status == u.marital_status && (p.occupation == u.occupation
  && (p.is_deceased == u.is_deceased
  && p.deceased_date == u.deceased_date)))))))))))))

/-- The `setattr` loop of `update_patient` followed by the commit:
`patient.dict()` yields exactly the declared `PatientBase` fields, each of
which is assigned onto the stored row.  At flush, if no assigned value differs
from the stored one, no UPDATE is emitted and the row — `updated_at`
included — is untouched; otherwise the UPDATE writes every payload column and
the `onupdate=func.now()` hook sets `updated_at` to the current tick.
`patient_id` and `created_at` are not in the payload and keep their stored
values. -/
def applyPayload (p : Patient) (u : PatientUpdate) (now : Nat) : Patient :=
  if payloadMatches p u then p
  else
    { p with
      mrn := u.mrn
      first_name := u.first_name
      middle_name := u.middle_name
      last_name := u.last_name
      date_of_birth := u.date_of_birth
      gender := u.gender
      biological_sex := u.biological_sex
      blood_type := u.blood_type
      ethnicity := u.ethnicity
      race := u.race
      preferred_language := u.preferred_language
      marital_status := u.marital_status
      occupation := u.occupation
      is_deceased := u.is_deceased
      deceased_date := u.deceased_date
      updated_at := now }

/-- In-place mutation of the first row matching the id (the object returned by
`.first()` is the one mutated and committed). -/
def replaceFirst : List Patient → String → (Patient → Patient) → List Patient
  | [], _, _ => []
  | p :: ps, pid, f =>
    if p.patient_id == pid then f p :: ps else p :: replaceFirst ps pid f

/-- `db.delete(db_patient)` removes the row returned by `.first()`. -/
def removeFirst : List Patient → String → List Patient
  | [], _ => []
  | p :: ps, pid => if p.patient_id == pid then ps else p :: removeFirst ps pid

/-- `PatientService.update_patient`: fetch by id; if present, overwrite every
payload field and commit (returning the refreshed row and the new store), else
return `None` leaving the store untouched. -/
def update_patient (db : DB) (patient_id : String) (u : PatientUpdate)
    (now : Nat) : Option Patient × DB :=
  match db.patients.find? (fun p => p.patient_id == patient_id) with
  | none => (none, db)
  | some p0 =>
    (some (applyPayload p0 u now),
     { db with patients :=
        replaceFirst db.patients patient_id (fun p => applyPayload p u now) })

/-- `PatientService.delete_patient`: fetch by id; if present, delete the row
and commit, returning its prior state, else return `None` leaving the store
untouched. -/
def delete_patient (db : DB) (patient_id : String) : Option Patient × DB :=
  match db.patients.find? (fun p => p.patient_id == patient_id) with
  | none => (none, db)
  | some p0 => (some p0, { db with patients := removeFirst db.patients patient_id })

/-- The projection at the end of `search_patients`:
`patient.contact_info[0].email if patient.contact_info else None` together with
the copied scalar columns. -/
def summaryOf (db : DB) (p : Patient) : PatientSummary :=
  { patient_id := p.patient_id
    first_name := p.first_name
    last_name := p.last_name
    email :=
      match db.contact_info.filter (fun c => c.patient_id == p.patient_id) with
      | [] => none
      | c :: _ => c.email
    created_at := p.created_at
    updated_at := p.updated_at }

/-- `if query.age_min is not None: ... filter(date_part('year', age(dob)) >= age_min)`. -/
def ageMinStep (today : HDate) (q : PatientQuery) (rows : List Patient) : List Patient :=
  match q.age_min with
  | none => rows
  | some a => rows.filter (fun p => decide (a ≤ ageYears today p.date_of_birth))

/-- `if query.age_max is not None: ... filter(date_part('year', age(dob)) <= age_max)`. -/
def ageMaxStep (today : HDate) (q : PatientQuery) (rows : List Patient) : List Patient :=
  match q.age_max with
  | none => rows
  | some a => rows.filter (fun p => decide (ageYears today p.date_of_birth ≤ a))

/-- `if query.gender is not None: ... filter(Patient.gender == query.gender)`. -/
def genderStep (q : PatientQuery) (rows : List Patient) : List Patient :=
  match q.gender with
  | none => rows
  | some g => rows.filter (fun p => p.gender == g)

/-- `if query.ethnicity is not None: ... filter(Patient.ethnicity == query.ethnicity)`. -/
def ethnicityStep (q : PatientQuery) (rows : List Patient) : List Patient :=
  match q.ethnicity with
  | none => rows
  | some e => rows.filter (fun p => p.ethnicity == some e)

/-- `if query.race is not None: ... filter(Patient.race == query.race)`. -/
def raceStep (q : PatientQuery) (rows : List Patient) : List Patient :=
  match q.race with
  | none => rows
  | some r => rows.filter (fun p => p.race == some r)

/-- `if query.is_deceased is not None: ... filter(Patient.is_deceased == query.is_deceased)`. -/
def isDeceasedStep (q : PatientQuery) (rows : List Patient) : List Patient :=
  match q.is_deceased with
  | none => rows
  | some b => rows.filter (fun p => p.is_deceased == some b)

/-- `if query.risk_factors:` (Python truthiness: `None` and `[]` both skip the
block) `... join(PatientRiskFactor).filter(factor_name.in_(query.risk_factors))`:
an inner join emits one copy of the patient row per qualifying related row. -/
def riskFactorsStep (db : DB) (q : PatientQuery) (rows : List Patient) : List Patient :=
  match q.risk_factors with
  | some (f :: fs) =>
    rows.flatMap (fun p =>
      (db.risk_factors.filter (fun r =>
        r.patient_id == p.patient_id && (f :: fs).contains r.factor_name)).map
        (fun _ => p))
  | _ => rows

/-- `if query.diagnoses:` (truthiness again)
`... join(Diagnosis).join(ICDCode).filter(ICDCode.code.in_(query.diagnoses))`:
the chained inner joins emit one copy of the patient row per (diagnosis,
matching icd code) pair. -/
def diagnosesStep (db : DB) (q : PatientQuery) (rows : List Patient) : List Patient :=
  match q.diagnoses with
  | some (c :: cs) =>
    rows.flatMap (fun p =>
      ((db.diagnoses.filter (fun d => d.patient_id == p.patient_id)).flatMap
        (fun d => db.icd_codes.filter (fun ic =>
          ic.icd_code_id == d.icd_code_id && (c :: cs).contains ic.code))).map
        (fun _ => p))
  | _ => rows

/-- Primary-key uniquification the legacy SQLAlchemy `Query` applies to
full-entity result rows on `.all()`: keep the first occurrence of each
`patient_id`, drop later ones. -/
def uniquifyBy : List String → List Patient → List Patient
  | _, [] => []
  | seen, p :: ps =>
    if p.patient_id ∈ seen then uniquifyBy seen ps
    else p :: uniquifyBy (p.patient_id :: seen) ps

/-- `PatientService.search_patients`: the conditional filter/join pipeline in
source order, the ORM uniquification on `.all()`, and the summary projection. -/
def search_patients (db : DB) (today : HDate) (q : PatientQuery) : List PatientSummary :=
  (uniquifyBy []
    (diagnosesStep db q
      (riskFactorsStep db q
        (isDeceasedStep q
          (raceStep q
            (ethnicityStep q
              (genderStep q
                (ageMaxStep today q
                  (ageMinStep today q db.patients))))))))).map (summaryOf db)

end PatientService

/-- Result of a route handler: the returned entity or an `HTTPException`. -/
inductive ApiResult (α : Type) where
  | ok : α → ApiResult α
  | httpError : Nat → String → ApiResult α
deriving DecidableEq

namespace Endpoints

/-- `GET /patients/id`: 404 when the service returns `None`. -/
def read_patient (db : DB) (patient_id : String) : ApiResult Patient :=
  match PatientService.get_patient db patient_id with
  | none => .httpError 404 "Patient not found"
  | some p => .ok p

/-- `PUT /patients/id`: 404 when the service returns `None`; the store after
the call is returned alongside to track the state effect. -/
def update_patient (db : DB) (patient_id : String) (u : PatientUpdate)
    (now : Nat) : ApiResult Patient × DB :=
  match PatientService.update_patient db patient_id u now with
  | (none, db2) => (.httpError 404 "Patient not found", db2)
  | (some p, db2) => (.ok p, db2)

/-- `DELETE /patients/id`: 404 when the service returns `None`. -/
def delete_patient (db : DB) (patient_id : String) : ApiResult Patient × DB :=
  match PatientService.delete_patient db patient_id with
  | (none, db2) => (.httpError 404 "Patient not found", db2)
  | (some p, db2) => (.ok p, db2)

end Endpoints

/-! Concrete fixture data used by the witness theorems. -/

/-- Fixture contact row for patient `pa`. -/
def exContact1 : PatientContactInfo :=
  { contact_id := "c1", patient_id := "pa", email := some "ann@example.org"
    phone_primary := none, phone_secondary := none
    preferred_contact_method := "email", emergency_contact_name := none
    emergency_contact_relation := none, emergency_contact_phone := none
    created_at := 0, updated_at := 0 }

/-- Fixture patient, born 1990-05-10, with two qualifying risk-factor rows. -/
def exPatientA : Patient :=
  { patient_id := "pa", mrn := "m1", first_name := "Ann", middle_name := none
    last_name := "Lee", date_of_birth := ⟨1990, 5, 10⟩, gender := "F"
    biological_sex := "F", blood_type := none, ethnicity := some "X"
    race := some "Y", preferred_language := none, marital_status := none
    occupation := none, created_at := 0, updated_at := 0
    is_deceased := some false, deceased_date := none }

/-- Fixture patient, born 1970-01-02, with no related rows. -/
def exPatientB : Patient :=
  { patient_id := "pb", mrn := "m2", first_name := "Bob", middle_name := none
    last_name := "Kim", date_of_birth := ⟨1970, 1, 2⟩, gender := "M"
    biological_sex := "M", blood_type := none, ethnicity := none
    race := none, preferred_language := none, marital_status := none
    occupation := none, created_at := 0, updated_at := 0
    is_deceased := some false, deceased_date := none }

/-- First of two risk-factor rows named Hypertension for `pa`. -/
def exRisk1 : PatientRiskFactor :=
  { risk_factor_id := "r1", patient_id := "pa", factor_name := "Hypertension"
    factor_value := none, factor_type := "condition", severity := none
    onset_date := none, end_date := none, is_current := some true, notes := none }

/-- Second of two risk-factor rows named Hypertension for `pa`. -/
def exRisk2 : PatientRiskFactor :=
  { risk_factor_id := "r2", patient_id := "pa", factor_name := "Hypertension"
    factor_value := none, factor_type := "condition", severity := some "high"
    onset_date := none, end_date := none, is_current := some true, notes := none }

/-- Fixture store: two patients, two duplicate-name risk rows, one contact. -/
def exDB : DB :=
  { patients := [exPatientA, exPatientB]
    risk_factors := [exRisk1, exRisk2]
    diagnoses := [], icd_codes := [], contact_info := [exContact1] }

/-- Fixture current date: 2025-06-01. -/
def exToday : HDate := ⟨2025, 6, 1⟩

/-- Fixture update payload. -/
def exPayload : PatientUpdate :=
  { mrn := "m1b", first_name := "Anna", middle_name := some "Q"
    last_name := "Lee-Park", date_of_birth := ⟨1990, 5, 10⟩, gender := "F"
    biological_sex := "F", blood_type := some "O+", ethnicity := none
    race := none, preferred_language := some "en", marital_status := none
    occupation := some "engineer", is_deceased := some false
    deceased_date := none }

/-- Fixture update payload whose every field equals the stored values of
`exPatientA` (a no-net-change update). -/
def exPayloadSame : PatientUpdate :=
  { mrn := "m1", first_name := "Ann", middle_name := none
    last_name := "Lee", date_of_birth := ⟨1990, 5, 10⟩, gender := "F"
    biological_sex := "F", blood_type := none, ethnicity := some "X"
    race := some "Y", preferred_language := none, marital_status := none
    occupation := none, is_deceased := some false
    deceased_date := none }

/-! Declarative characterization of the search pipeline, used to state the
claims: per-filter predicates, join multiplicities, and the proof that the
pipeline equals a single conjunctive filter over the patients table. -/

namespace PatientService

/-- The `age_min` filter as a per-patient predicate (absent filter: `true`). -/
def ageMinOk (today : HDate) (q : PatientQuery) (p : Patient) : Bool :=
  match q.age_min with
  | none => true
  | some a => decide (a ≤ ageYears today p.date_of_birth)

/-- The `age_max` filter as a per-patient predicate. -/
def ageMaxOk (today : HDate) (q : PatientQuery) (p : Patient) : Bool :=
  match q.age_max with
  | none => true
  | some a => decide (ageYears today p.date_of_birth ≤ a)

/-- The `gender` filter as a per-patient predicate. -/
def genderOk (q : PatientQuery) (p : Patient) : Bool :=
  match q.gender with
  | none => true
  | some g => p.gender == g

/-- The `ethnicity` filter as a per-patient predicate. -/
def ethnicityOk (q : PatientQuery) (p : Patient) : Bool :=
  match q.ethnicity with
  | none => true
  | some e => p.ethnicity == some e

/-- The `race` filter as a per-patient predicate. -/
def raceOk (q : PatientQuery) (p : Patient) : Bool :=
  match q.race with
  | none => true
  | some r => p.race == some r

/-- The `is_deceased` filter as a per-patient predicate. -/
def isDeceasedOk (q : PatientQuery) (p : Patient) : Bool :=
  match q.is_deceased with
  | none => true
  | some b => p.is_deceased == some b

/-- Conjunction of the six scalar filters. -/
def scalarOk (today : HDate) (q : PatientQuery) (p : Patient) : Bool :=
  isDeceasedOk q p && (raceOk q p && (ethnicityOk q p
    && (genderOk q p && (ageMaxOk today q p && ageMinOk today q p))))

/-- Number of related rows the risk-factor join emits for a patient
(`1` when the filter is inactive, so the join multiplies row counts). -/
def riskCount (db : DB) (q : PatientQuery) (p : Patient) : Nat :=
  match q.risk_factors with
  | some (f :: fs) =>
    (db.risk_factors.filter (fun r =>
      r.patient_id == p.patient_id && (f :: fs).contains r.factor_name)).length
  | _ => 1

/-- Number of (diagnosis, icd-code) pairs the diagnosis join emits for a
patient (`1` when the filter is inactive). -/
def diagCount (db : DB) (q : PatientQuery) (p : Patient) : Nat :=
  match q.diagnoses with
  | some (c :: cs) =>
    ((db.diagnoses.filter (fun d => d.patient_id == p.patient_id)).flatMap
      (fun d => db.icd_codes.filter (fun ic =>
        ic.icd_code_id == d.icd_code_id && (c :: cs).contains ic.code))).length
  | _ => 1

/-- A patient satisfies the whole search query: every scalar filter and, for
each active membership filter, at least one qualifying related row. -/
def matchesSearch (db : DB) (today : HDate) (q : PatientQuery) (p : Patient) : Bool :=
  (riskCount db q p != 0) && (diagCount db q p != 0) && scalarOk today q p

/-- Primary-key invariant of the patients table: `patient_id` values are
pairwise distinct. -/
abbrev pkNodup (db : DB) : Prop := (db.patients.map Patient.patient_id).Nodup

lemma ageMinStep_eq (today : HDate) (q : PatientQuery) (rows : List Patient) :
    ageMinStep today q rows = rows.filter (ageMinOk today q) := by
  cases h : q.age_min with
  | none =>
    have hf : ageMinOk today q = fun _ => true := funext fun p => by simp [ageMinOk, h]
    simp [ageMinStep, h, hf]
  | some a =>
    have hf : ageMinOk today q = fun p => decide (a ≤ ageYears today p.date_of_birth) :=
      funext fun p => by simp [ageMinOk, h]
    simp [ageMinStep, h, hf]

lemma ageMaxStep_eq (today : HDate) (q : PatientQuery) (rows : List Patient) :
    ageMaxStep today q rows = rows.filter (ageMaxOk today q) := by
  cases h : q.age_max with
  | none =>
    have hf : ageMaxOk today q = fun _ => true := funext fun p => by simp [ageMaxOk, h]
    simp [ageMaxStep, h, hf]
  | some a =>
    have hf : ageMaxOk today q = fun p => decide (ageYears today p.date_of_birth ≤ a) :=
      funext fun p => by simp [ageMaxOk, h]
    simp [ageMaxStep, h, hf]

lemma genderStep_eq (q : PatientQuery) (rows : List Patient) :
    genderStep q rows = rows.filter (genderOk q) := by
  cases h : q.gender with
  | none =>
    have hf : genderOk q = fun _ => true := funext fun p => by simp [genderOk, h]
    simp [genderStep, h, hf]
  | some g =>
    have hf : genderOk q = fun p => p.gender == g := funext fun p => by simp [genderOk, h]
    simp [genderStep, h, hf]

lemma ethnicityStep_eq (q : PatientQuery) (rows : List Patient) :
    ethnicityStep q rows = rows.filter (ethnicityOk q) := by
  cases h : q.ethnicity with
  | none =>
    have hf : ethnicityOk q = fun _ => true := funext fun p => by simp [ethnicityOk, h]
    simp [ethnicityStep, h, hf]
  | some e =>
    have hf : ethnicityOk q = fun p => p.ethnicity == some e :=
      funext fun p => by simp [ethnicityOk, h]
    simp [ethnicityStep, h, hf]

lemma raceStep_eq (q : PatientQuery) (rows : List Patient) :
    raceStep q rows = rows.filter (raceOk q) := by
  cases h : q.race with
  | none =>
    have hf : raceOk q = fun _ => true := funext fun p => by simp [raceOk, h]
    simp [raceStep, h, hf]
  | some r =>
    have hf : raceOk q = fun p => p.race == some r := funext fun p => by simp [raceOk, h]
    simp [raceStep, h, hf]

lemma isDeceasedStep_eq (q : PatientQuery) (rows : List Patient) :
    isDeceasedStep q rows = rows.filter (isDeceasedOk q) := by
  cases h : q.is_deceased with
  | none =>
    have hf : isDeceasedOk q = fun _ => true := funext fun p => by simp [isDeceasedOk, h]
    simp [isDeceasedStep, h, hf]
  | some b =>
    have hf : isDeceasedOk q = fun p => p.is_deceased == some b :=
      funext fun p => by simp [isDeceasedOk, h]
    simp [isDeceasedStep, h, hf]

lemma scalar_steps_eq (today : HDate) (q : PatientQuery) (rows : List Patient) :
    isDeceasedStep q (raceStep q (ethnicityStep q (genderStep q
      (ageMaxStep today q (ageMinStep today q rows)))))
      = rows.filter (scalarOk today q) := by
  simp only [ageMinStep_eq, ageMaxStep_eq, genderStep_eq, ethnicityStep_eq,
    raceStep_eq, isDeceasedStep_eq, List.filter_filter]
  rfl

lemma riskFactorsStep_eq (db : DB) (q : PatientQuery) (rows : List Patient) :
    riskFactorsStep db q rows
      = rows.flatMap (fun p => List.replicate (riskCount db q p) p) := by
  cases h : q.risk_factors with
  | none => simp [riskFactorsStep, riskCount, h]
  | some l =>
    cases l with
    | nil => simp [riskFactorsStep, riskCount, h]
    | cons f fs => simp [riskFactorsStep, riskCount, h, List.map_const']

lemma diagnosesStep_eq (db : DB) (q : PatientQuery) (rows : List Patient) :
    diagnosesStep db q rows
      = rows.flatMap (fun p => List.replicate (diagCount db q p) p) := by
  cases h : q.diagnoses with
  | none => simp [diagnosesStep, diagCount, h]
  | some l =>
    cases l with
    | nil => simp [diagnosesStep, diagCount, h]
    | cons c cs => simp [diagnosesStep, diagCount, h, List.map_const']

lemma replicate_flatMap (x : Patient) (n : Nat) (g : Patient → Nat) :
    (List.replicate n x).flatMap (fun p => List.replicate (g p) p)
      = List.replicate (n * g x) x := by
  induction n with
  | zero => simp
  | succ n ih =>
    rw [List.replicate_succ, List.flatMap_cons, ih, ← List.replicate_add]
    congr 1
    ring

lemma flatMap_flatMap_replicate (rows : List Patient) (g1 g2 : Patient → Nat) :
    (rows.flatMap (fun p => List.replicate (g1 p) p)).flatMap
        (fun p => List.replicate (g2 p) p)
      = rows.flatMap (fun p => List.replicate (g1 p * g2 p) p) := by
  induction rows with
  | nil => simp
  | cons p ps ih =>
    rw [List.flatMap_cons, List.flatMap_append, replicate_flatMap, ih,
      List.flatMap_cons]

lemma uniquifyBy_replicate_append (x : Patient) (n : Nat) :
    ∀ (seen : List String) (t : List Patient), x.patient_id ∈ seen →
      uniquifyBy seen (List.replicate n x ++ t) = uniquifyBy seen t := by
  induction n with
  | zero => intro seen t _; simp [List.replicate]
  | succ n ih =>
    intro seen t h
    rw [List.replicate_succ, List.cons_append]
    simp only [uniquifyBy, if_pos h]
    exact ih seen t h

lemma uniquifyBy_flatMap_replicate (g : Patient → Nat) :
    ∀ (L : List Patient) (seen : List String),
      (L.map Patient.patient_id).Nodup →
      (∀ p ∈ L, p.patient_id ∉ seen) →
      uniquifyBy seen (L.flatMap (fun p => List.replicate (g p) p))
        = L.filter (fun p => g p != 0) := by
  intro L
  induction L with
  | nil => intro seen _ _; simp [uniquifyBy]
  | cons p ps ih =>
    intro seen hnd hseen
    rw [List.map_cons, List.nodup_cons] at hnd
    obtain ⟨hpid, hnd2⟩ := hnd
    have hpseen : p.patient_id ∉ seen := hseen p (List.mem_cons_self p ps)
    rw [List.flatMap_cons, List.filter_cons]
    cases hg : g p with
    | zero =>
      simp only [List.replicate, List.nil_append]
      rw [ih seen hnd2 (fun x hx => hseen x (List.mem_cons_of_mem p hx))]
      simp
    | succ n =>
      rw [List.replicate_succ, List.cons_append]
      simp only [uniquifyBy, if_neg hpseen]
      rw [uniquifyBy_replicate_append p n (p.patient_id :: seen)
        (ps.flatMap fun x => List.replicate (g x) x)
        (List.mem_cons_self p.patient_id seen)]
      rw [ih (p.patient_id :: seen) hnd2 ?newSeen]
      · simp
      case newSeen =>
        intro x hx
        rw [List.mem_cons]
        push_neg
        constructor
        · intro hcontra
          exact hpid (hcontra ▸ List.mem_map_of_mem Patient.patient_id hx)
        · exact hseen x (List.mem_cons_of_mem p hx)

lemma mul_bne_zero (a b : Nat) : ((a * b) != 0) = ((a != 0) && (b != 0)) := by
  cases a <;> cases b <;> simp

/-- Master characterization: under the primary-key invariant, the search
pipeline equals one conjunctive filter over the patients table followed by the
summary projection. -/
lemma search_patients_eq_filter (db : DB) (today : HDate) (q : PatientQuery)
    (hn : pkNodup db) :
    search_patients db today q
      = (db.patients.filter (matchesSearch db today q)).map (summaryOf db) := by
  have hsub : ((db.patients.filter (scalarOk today q)).map Patient.patient_id).Nodup :=
    hn.sublist (List.Sublist.map Patient.patient_id (List.filter_sublist db.patients))
  rw [search_patients, scalar_steps_eq, riskFactorsStep_eq, diagnosesStep_eq,
    flatMap_flatMap_replicate,
    uniquifyBy_flatMap_replicate _ _ [] hsub (fun p _ => List.not_mem_nil p.patient_id),
    List.filter_filter]
  congr 1
  apply List.filter_congr
  intro x _
  rw [mul_bne_zero]
  rfl

end PatientService

/-! Support lemmas for the CRUD operations. -/

namespace PatientService

lemma applyPayload_self (p : Patient) (u : PatientUpdate) (t : Nat)
    (h : payloadMatches p u = true) : applyPayload p u t = p := by
  simp [applyPayload, h]

lemma applyPayload_of_not_matches (p : Patient) (u : PatientUpdate) (now : Nat)
    (h : ¬ payloadMatches p u = true) :
    applyPayload p u now
      = { p with
          mrn := u.mrn
          first_name := u.first_name
          middle_name := u.middle_name
          last_name := u.last_name
          date_of_birth := u.date_of_birth
          gender := u.gender
          biological_sex := u.biological_sex
          blood_type := u.blood_type
          ethnicity := u.ethnicity
          race := u.race
          preferred_language := u.preferred_language
          marital_status := u.marital_status
          occupation := u.occupation
          is_deceased := u.is_deceased
          deceased_date := u.deceased_date
          updated_at := now } := by
  simp only [applyPayload]
  rw [if_neg h]

lemma applyPayload_patient_id (p : Patient) (u : PatientUpdate) (now : Nat) :
    (applyPayload p u now).patient_id = p.patient_id := by
  by_cases h : payloadMatches p u = true
  · rw [applyPayload_self p u now h]
  · rw [applyPayload_of_not_matches p u now h]

lemma applyPayload_matches (p : Patient) (u : PatientUpdate) (now : Nat) :
    payloadMatches (applyPayload p u now) u = true := by
  by_cases h : payloadMatches p u = true
  · rw [applyPayload_self p u now h]
    exact h
  · rw [applyPayload_of_not_matches p u now h]
    simp [payloadMatches]

lemma applyPayload_fields (p : Patient) (u : PatientUpdate) (now : Nat) :
    (applyPayload p u now).mrn = u.mrn
    ∧ (applyPayload p u now).first_name = u.first_name
    ∧ (applyPayload p u now).middle_name = u.middle_name
    ∧ (applyPayload p u now).last_name = u.last_name
    ∧ (applyPayload p u now).date_of_birth = u.date_of_birth
    ∧ (applyPayload p u now).gender = u.gender
    ∧ (applyPayload p u now).biological_sex = u.biological_sex
    ∧ (applyPayload p u now).blood_type = u.blood_type
    ∧ (applyPayload p u now).ethnicity = u.ethnicity
    ∧ (applyPayload p u now).race = u.race
    ∧ (applyPayload p u now).preferred_language = u.preferred_language
    ∧ (applyPayload p u now).marital_status = u.marital_status
    ∧ (applyPayload p u now).occupation = u.occupation
    ∧ (applyPayload p u now).is_deceased = u.is_deceased
    ∧ (applyPayload p u now).deceased_date = u.deceased_date
    ∧ (applyPayload p u now).patient_id = p.patient_id
    ∧ (applyPayload p u now).created_at = p.created_at := by
  by_cases h : payloadMatches p u = true
  · have h2 := h
    simp only [payloadMatches, Bool.and_eq_true, beq_iff_eq] at h2
    obtain ⟨h1, h3, h4, h5, h6, h7, h8, h9, h10, h11, h12, h13, h14, h15, h16⟩ := h2
    rw [applyPayload_self p u now h]
    exact ⟨h1, h3, h4, h5, h6, h7, h8, h9, h10, h11, h12, h13, h14, h15, h16, rfl, rfl⟩
  · rw [applyPayload_of_not_matches p u now h]
    exact ⟨rfl, rfl, rfl, rfl, rfl, rfl, rfl, rfl, rfl, rfl, rfl, rfl, rfl, rfl, rfl,
      rfl, rfl⟩

lemma find?_replaceFirst_applyPayload (u : PatientUpdate) (now : Nat) (pid : String) :
    ∀ (l : List Patient) (p0 : Patient),
      l.find? (fun p => p.patient_id == pid) = some p0 →
      (replaceFirst l pid (fun p => applyPayload p u now)).find?
          (fun p => p.patient_id == pid)
        = some (applyPayload p0 u now) := by
  intro l
  induction l with
  | nil => intro p0 h; simp at h
  | cons p ps ih =>
    intro p0 h
    cases hp : (p.patient_id == pid) with
    | true =>
      simp only [List.find?, hp] at h
      injection h with h
      subst h
      simp only [replaceFirst, hp, if_pos]
      have hp2 : ((applyPayload p u now).patient_id == pid) = true := by
        rw [applyPayload_patient_id]; exact hp
      simp only [List.find?, hp2]
    | false =>
      simp only [List.find?, hp] at h
      simp only [replaceFirst, hp, Bool.false_eq_true, if_false]
      simp only [List.find?, hp]
      exact ih p0 h

lemma applyPayload_applyPayload (p : Patient) (u : PatientUpdate) (t1 t2 : Nat) :
    applyPayload (applyPayload p u t1) u t2 = applyPayload p u t1 :=
  applyPayload_self _ u t2 (applyPayload_matches p u t1)

lemma replaceFirst_replaceFirst (pid : String) (f g : Patient → Patient)
    (hf : ∀ p, (f p).patient_id = p.patient_id) :
    ∀ l : List Patient,
      replaceFirst (replaceFirst l pid f) pid g
        = replaceFirst l pid (fun p => g (f p)) := by
  intro l
  induction l with
  | nil => rfl
  | cons p ps ih =>
    cases hp : (p.patient_id == pid) with
    | true =>
      simp only [replaceFirst, hp, if_pos]
      have : ((f p).patient_id == pid) = true := by rw [hf p]; exact hp
      simp only [replaceFirst, this, if_pos]
    | false =>
      simp only [replaceFirst, hp, Bool.false_eq_true, if_false]
      rw [ih]

end PatientService

namespace PatientService

lemma get_patient_none_iff (db : DB) (pid : String) :
    get_patient db pid = none ↔ ¬ ∃ p ∈ db.patients, p.patient_id = pid := by
  simp [get_patient, List.find?_eq_none]

lemma get_patient_some_spec (db : DB) (pid : String) (p0 : Patient)
    (h : get_patient db pid = some p0) :
    p0 ∈ db.patients ∧ p0.patient_id = pid := by
  simp only [get_patient] at h
  exact ⟨List.mem_of_find?_eq_some h, by simpa using List.find?_some h⟩

lemma update_patient_none (db : DB) (pid : String) (u : PatientUpdate) (now : Nat)
    (h : get_patient db pid = none) :
    update_patient db pid u now = (none, db) := by
  simp only [get_patient] at h
  simp [update_patient, h]

lemma delete_patient_none (db : DB) (pid : String)
    (h : get_patient db pid = none) :
    delete_patient db pid = (none, db) := by
  simp only [get_patient] at h
  simp [delete_patient, h]

lemma update_patient_some (db : DB) (pid : String) (u : PatientUpdate) (now : Nat)
    (p0 : Patient) (h : get_patient db pid = some p0) :
    update_patient db pid u now
      = (some (applyPayload p0 u now),
         { db with patients :=
            replaceFirst db.patients pid (fun p => applyPayload p u now) }) := by
  simp only [get_patient] at h
  simp [update_patient, h]

lemma delete_patient_some (db : DB) (pid : String) (p0 : Patient)
    (h : get_patient db pid = some p0) :
    delete_patient db pid
      = (some p0, { db with patients := removeFirst db.patients pid }) := by
  simp only [get_patient] at h
  simp [delete_patient, h]

lemma countP_filter_of_nodup_key :
    ∀ (l : List Patient), (l.map Patient.patient_id).Nodup →
      ∀ (m : Patient → Bool) (p : Patient), p ∈ l →
        ((l.filter m).countP (fun x => x.patient_id == p.patient_id))
          = if m p then 1 else 0 := by
  intro l
  induction l with
  | nil => intro _ m p hp; simp at hp
  | cons a ps ih =>
    intro hnd m p hp
    rw [List.map_cons, List.nodup_cons] at hnd
    obtain ⟨ha, hnd2⟩ := hnd
    rw [List.filter_cons]
    rcases List.mem_cons.mp hp with rfl | hp2
    · have hzero : (ps.filter m).countP (fun x => x.patient_id == p.patient_id) = 0 := by
        rw [List.countP_eq_zero]
        intro x hx
        have hxl : x ∈ ps := List.mem_of_mem_filter hx
        simp only [beq_iff_eq]
        intro hcontra
        exact ha (hcontra ▸ List.mem_map_of_mem Patient.patient_id hxl)
      cases hm : m p with
      | true => simp [hm, List.countP_cons, hzero]
      | false => simp [hm, hzero]
    · have hne : (a.patient_id == p.patient_id) = false := by
        simp only [beq_eq_false_iff_ne, ne_eq]
        intro hcontra
        exact ha (hcontra ▸ List.mem_map_of_mem Patient.patient_id hp2)
      cases hm : m a with
      | true => simp [hm, List.countP_cons, hne, ih hnd2 m p hp2]
      | false => simp [hm, ih hnd2 m p hp2]

end PatientService

/-! Sanity checks of the embedding on the concrete fixture data. -/

example : ageYears exToday exPatientA.date_of_birth = 35 := by decide
example : ageYears exToday exPatientB.date_of_birth = 55 := by decide
example : ageYears ⟨2025, 5, 9⟩ exPatientA.date_of_birth = 34 := by decide
example :
    PatientService.search_patients exDB exToday {}
      = [PatientService.summaryOf exDB exPatientA,
         PatientService.summaryOf exDB exPatientB] := by decide
example :
    PatientService.search_patients exDB exToday { risk_factors := some ["Hypertension"] }
      = [PatientService.summaryOf exDB exPatientA] := by decide
example :
    (PatientService.summaryOf exDB exPatientA).email = some "ann@example.org" := by decide
example :
    PatientService.search_patients exDB exToday { age_min := some 40 }
      = [PatientService.summaryOf exDB exPatientB] := by decide
example :
    PatientService.update_patient exDB "pa" exPayloadSame 9 = (some exPatientA, exDB) := by
  decide
example :
    (PatientService.update_patient
        (PatientService.update_patient exDB "pa" exPayload 1).2 "pa" exPayload 2).2
      = (PatientService.update_patient exDB "pa" exPayload 1).2 := by decide

/-! Claim theorems. -/

/-- C2: for every search query, the result is the set of patients satisfying
the conjunction (AND) of all present filter fields; an absent (`None`) field
imposes no constraint, and a search with every filter field absent returns all
patients with no pagination limit (search applies no offset or limit). -/
theorem search_conjunctive_filter_semantics
    (db : DB) (today : HDate) (q : PatientQuery) (hn : PatientService.pkNodup db) :
    PatientService.search_patients db today q
      = (db.patients.filter (PatientService.matchesSearch db today q)).map
          (PatientService.summaryOf db)
    ∧ (q = {} →
        PatientService.search_patients db today q
          = db.patients.map (PatientService.summaryOf db)) := by
  constructor
  · exact PatientService.search_patients_eq_filter db today q hn
  · intro hq
    subst hq
    rw [PatientService.search_patients_eq_filter db today {} hn]
    have hall : PatientService.matchesSearch db today {} = fun _ => true := by
      funext p
      simp [PatientService.matchesSearch, PatientService.scalarOk,
        PatientService.ageMinOk, PatientService.ageMaxOk, PatientService.genderOk,
        PatientService.ethnicityOk, PatientService.raceOk, PatientService.isDeceasedOk,
        PatientService.riskCount, PatientService.diagCount]
    rw [hall, List.filter_true]

/-- Witness for C2 at the concrete fixture store: the no-filter search returns
every patient, projected to summaries. -/
theorem search_conjunctive_filter_semantics_witness :
    PatientService.search_patients exDB exToday {}
      = exDB.patients.map (PatientService.summaryOf exDB) :=
  (search_conjunctive_filter_semantics exDB exToday {} (by decide)).2 rfl

/-- C7: a query with contradictory age bounds (`age_min > age_max`) raises no
error and is not rejected: search returns normally, with an empty result. -/
theorem search_contradictory_age_bounds_empty
    (db : DB) (today : HDate) (q : PatientQuery) (a b : Int)
    (hmin : q.age_min = some a) (hmax : q.age_max = some b) (hlt : b < a) :
    PatientService.search_patients db today q = [] := by
  have hempty :
      PatientService.ageMaxStep today q (PatientService.ageMinStep today q db.patients)
        = [] := by
    rw [PatientService.ageMinStep_eq, PatientService.ageMaxStep_eq, List.filter_filter,
      List.filter_eq_nil_iff]
    intro x _
    have h1 : PatientService.ageMaxOk today q x
        = decide (ageYears today x.date_of_birth ≤ b) := by
      simp [PatientService.ageMaxOk, hmax]
    have h2 : PatientService.ageMinOk today q x
        = decide (a ≤ ageYears today x.date_of_birth) := by
      simp [PatientService.ageMinOk, hmin]
    simp only [h1, h2, Bool.and_eq_true, decide_eq_true_eq, not_and]
    intro hub hlb
    omega
  rw [PatientService.search_patients, hempty, PatientService.genderStep_eq,
    PatientService.ethnicityStep_eq, PatientService.raceStep_eq,
    PatientService.isDeceasedStep_eq, PatientService.riskFactorsStep_eq,
    PatientService.diagnosesStep_eq]
  simp [PatientService.uniquifyBy]

/-- Witness for C7: `age_min = 40, age_max = 30` on the fixture store returns
the empty list. -/
theorem search_contradictory_age_bounds_empty_witness :
    PatientService.search_patients exDB exToday
        { age_min := some 40, age_max := some 30 } = [] :=
  search_contradictory_age_bounds_empty exDB exToday
    { age_min := some 40, age_max := some 30 } 40 30 rfl rfl (by norm_num)

/-- C9: a `risk_factors` or `diagnoses` filter given as an empty list behaves
identically to an absent filter, because the builder tests the list's Python
truthiness: it introduces no join and imposes no constraint. -/
theorem empty_membership_filter_like_absent (db : DB) (today : HDate) (q : PatientQuery) :
    (q.risk_factors = some [] →
      PatientService.search_patients db today q
        = PatientService.search_patients db today { q with risk_factors := none })
    ∧ (q.diagnoses = some [] →
      PatientService.search_patients db today q
        = PatientService.search_patients db today { q with diagnoses := none }) := by
  constructor
  · intro h
    have hrf : ∀ rows, PatientService.riskFactorsStep db q rows = rows := by
      intro rows; simp [PatientService.riskFactorsStep, h]
    simp only [PatientService.search_patients, hrf]
    rfl
  · intro h
    have hdg : ∀ rows, PatientService.diagnosesStep db q rows = rows := by
      intro rows; simp [PatientService.diagnosesStep, h]
    simp only [PatientService.search_patients, hdg]
    rfl

/-- Witness for C9: on the fixture store, `risk_factors = []` returns the same
result as omitting the filter. -/
theorem empty_membership_filter_like_absent_witness :
    PatientService.search_patients exDB exToday { risk_factors := some [] }
      = PatientService.search_patients exDB exToday {} :=
  (empty_membership_filter_like_absent exDB exToday { risk_factors := some [] }).1 rfl

/-- C10: update and delete are no-ops on the not-found path: when no patient
with the id exists, neither performs any write, and the whole store is
returned unchanged. -/
theorem update_delete_leave_state_when_absent
    (db : DB) (pid : String) (u : PatientUpdate) (now : Nat)
    (h : ¬ ∃ p ∈ db.patients, p.patient_id = pid) :
    PatientService.update_patient db pid u now = (none, db)
    ∧ PatientService.delete_patient db pid = (none, db) := by
  have hg : PatientService.get_patient db pid = none :=
    (PatientService.get_patient_none_iff db pid).mpr h
  exact ⟨PatientService.update_patient_none db pid u now hg,
    PatientService.delete_patient_none db pid hg⟩

/-- Witness for C10: updating or deleting an absent id on the fixture store
returns `none` and the store unchanged. -/
theorem update_delete_leave_state_when_absent_witness :
    PatientService.update_patient exDB "zz" exPayload 3 = (none, exDB)
    ∧ PatientService.delete_patient exDB "zz" = (none, exDB) :=
  update_delete_leave_state_when_absent exDB "zz" exPayload 3 (by decide)

/-- C8: update is idempotent: issuing the same update payload twice leaves the
stored patient record in exactly the same state as issuing it once (whatever
clock ticks the two commits observe).  After the first call the stored values
equal the payload, so the second call's assignments produce no net change, the
flush emits no UPDATE, and `onupdate` does not fire. -/
theorem update_idempotent
    (db : DB) (pid : String) (u : PatientUpdate) (t1 t2 : Nat) :
    PatientService.update_patient
        (PatientService.update_patient db pid u t1).2 pid u t2
      = PatientService.update_patient db pid u t1 := by
  cases hfind : db.patients.find? (fun p => p.patient_id == pid) with
  | none =>
    simp [PatientService.update_patient, hfind]
  | some p0 =>
    have hfind1 :
        (PatientService.replaceFirst db.patients pid
            (fun p => PatientService.applyPayload p u t1)).find?
          (fun p => p.patient_id == pid)
        = some (PatientService.applyPayload p0 u t1) :=
      PatientService.find?_replaceFirst_applyPayload u t1 pid db.patients p0 hfind
    simp only [PatientService.update_patient, hfind, hfind1]
    rw [PatientService.replaceFirst_replaceFirst pid _ _
      (fun p => PatientService.applyPayload_patient_id p u t1)]
    have hfun :
        (fun p => PatientService.applyPayload (PatientService.applyPayload p u t1) u t2)
          = fun p => PatientService.applyPayload p u t1 :=
      funext fun p => PatientService.applyPayload_applyPayload p u t1 t2
    rw [hfun, PatientService.applyPayload_applyPayload]

/-- C1: for every search query with an active `risk_factors` or `diagnoses`
membership filter, each patient satisfying the query appears exactly once in
the result (and a non-matching patient not at all), even when the patient has
several related rows whose name or code is in the given set: the legacy ORM
uniquification collapses the duplicate rows produced by the join. -/
theorem search_membership_filter_dedup
    (db : DB) (today : HDate) (q : PatientQuery) (hn : PatientService.pkNodup db)
    (_hactive : (∃ f fs, q.risk_factors = some (f :: fs))
      ∨ (∃ c cs, q.diagnoses = some (c :: cs)))
    (p : Patient) (hp : p ∈ db.patients) :
    (PatientService.search_patients db today q).countP
        (fun s => s.patient_id == p.patient_id)
      = if PatientService.matchesSearch db today q p then 1 else 0 := by
  rw [PatientService.search_patients_eq_filter db today q hn, List.countP_map]
  have hcomp :
      ((fun s : PatientSummary => s.patient_id == p.patient_id)
          ∘ PatientService.summaryOf db)
        = fun x : Patient => x.patient_id == p.patient_id :=
    funext fun x => rfl
  rw [hcomp]
  exact PatientService.countP_filter_of_nodup_key db.patients hn _ p hp

/-- Witness for C1: patient `pa` has two risk-factor rows named Hypertension,
yet occurs exactly once in the result of the corresponding search. -/
theorem search_membership_filter_dedup_witness :
    (PatientService.search_patients exDB exToday
        { risk_factors := some ["Hypertension"] }).countP
        (fun s => s.patient_id == exPatientA.patient_id) = 1 := by
  have h := search_membership_filter_dedup exDB exToday
    { risk_factors := some ["Hypertension"] } (by decide)
    (Or.inl ⟨"Hypertension", [], rfl⟩) exPatientA (by decide)
  rw [h]
  decide

/-- C3: when `age_min` and/or `age_max` is present, a patient is included in
the search result only if the age in whole years computed from
`date_of_birth` relative to the current date satisfies the present bounds,
both inclusive. -/
theorem search_age_bounds_inclusive
    (db : DB) (today : HDate) (q : PatientQuery) (hn : PatientService.pkNodup db)
    (p : Patient) (hp : p ∈ db.patients)
    (hmem : ∃ s ∈ PatientService.search_patients db today q,
      s.patient_id = p.patient_id) :
    (∀ a, q.age_min = some a → a ≤ ageYears today p.date_of_birth)
    ∧ (∀ b, q.age_max = some b → ageYears today p.date_of_birth ≤ b) := by
  obtain ⟨s, hs, hsid⟩ := hmem
  rw [PatientService.search_patients_eq_filter db today q hn] at hs
  obtain ⟨x, hx, hxs⟩ := List.mem_map.mp hs
  obtain ⟨hxl, hxm⟩ := List.mem_filter.mp hx
  have hid : x.patient_id = p.patient_id := by rw [← hxs] at hsid; exact hsid
  have hxp : x = p := List.inj_on_of_nodup_map hn hxl hp hid
  subst hxp
  simp only [PatientService.matchesSearch, Bool.and_eq_true] at hxm
  obtain ⟨_, hscal⟩ := hxm
  simp only [PatientService.scalarOk, Bool.and_eq_true] at hscal
  obtain ⟨_, _, _, _, hmax, hmin⟩ := hscal
  constructor
  · intro a ha
    simpa [PatientService.ageMinOk, ha] using hmin
  · intro b hb
    simpa [PatientService.ageMaxOk, hb] using hmax

/-- Witness for C3: patient `pa` (age 35 on the fixture date) is in the result
of the `[30,40]` search, and the theorem yields both inclusive bounds. -/
theorem search_age_bounds_inclusive_witness :
    (30 : Int) ≤ ageYears exToday exPatientA.date_of_birth
    ∧ ageYears exToday exPatientA.date_of_birth ≤ (40 : Int) := by
  have h := search_age_bounds_inclusive exDB exToday
    { age_min := some 30, age_max := some 40 } (by decide) exPatientA (by decide)
    ⟨PatientService.summaryOf exDB exPatientA, by decide, rfl⟩
  exact ⟨h.1 30 rfl, h.2 40 rfl⟩

/-- C4: updating an existing patient leaves every declared payload field of
the stored record equal to the payload's value (optional fields included: they
are assigned too, and when nothing changes the stored values already coincide
with the payload), while `patient_id` (and `created_at`) keep their stored
values; the resulting record is both returned and stored. -/
theorem update_overwrites_every_payload_field
    (db : DB) (pid : String) (u : PatientUpdate) (now : Nat) (p0 : Patient)
    (h : PatientService.get_patient db pid = some p0) :
    ∃ p2,
      (PatientService.update_patient db pid u now).1 = some p2
      ∧ PatientService.get_patient (PatientService.update_patient db pid u now).2 pid
          = some p2
      ∧ p2.mrn = u.mrn ∧ p2.first_name = u.first_name
      ∧ p2.middle_name = u.middle_name ∧ p2.last_name = u.last_name
      ∧ p2.date_of_birth = u.date_of_birth ∧ p2.gender = u.gender
      ∧ p2.biological_sex = u.biological_sex ∧ p2.blood_type = u.blood_type
      ∧ p2.ethnicity = u.ethnicity ∧ p2.race = u.race
      ∧ p2.preferred_language = u.preferred_language
      ∧ p2.marital_status = u.marital_status ∧ p2.occupation = u.occupation
      ∧ p2.is_deceased = u.is_deceased ∧ p2.deceased_date = u.deceased_date
      ∧ p2.patient_id = p0.patient_id ∧ p2.created_at = p0.created_at := by
  have hu := PatientService.update_patient_some db pid u now p0 h
  simp only [PatientService.get_patient] at h
  obtain ⟨h1, h2, h3, h4, h5, h6, h7, h8, h9, h10, h11, h12, h13, h14, h15, h16, h17⟩ :=
    PatientService.applyPayload_fields p0 u now
  refine ⟨PatientService.applyPayload p0 u now, ?_, ?_, h1, h2, h3, h4, h5, h6, h7,
    h8, h9, h10, h11, h12, h13, h14, h15, h16, h17⟩
  · rw [hu]
  · rw [hu]
    exact PatientService.find?_replaceFirst_applyPayload u now pid db.patients p0 h

/-- Witness for C4 on the fixture store: updating patient `pa` with the
fixture payload at tick 7. -/
theorem update_overwrites_every_payload_field_witness :
    ∃ p2,
      (PatientService.update_patient exDB "pa" exPayload 7).1 = some p2
      ∧ PatientService.get_patient
          (PatientService.update_patient exDB "pa" exPayload 7).2 "pa" = some p2
      ∧ p2.mrn = exPayload.mrn ∧ p2.first_name = exPayload.first_name
      ∧ p2.middle_name = exPayload.middle_name ∧ p2.last_name = exPayload.last_name
      ∧ p2.date_of_birth = exPayload.date_of_birth ∧ p2.gender = exPayload.gender
      ∧ p2.biological_sex = exPayload.biological_sex
      ∧ p2.blood_type = exPayload.blood_type
      ∧ p2.ethnicity = exPayload.ethnicity ∧ p2.race = exPayload.race
      ∧ p2.preferred_language = exPayload.preferred_language
      ∧ p2.marital_status = exPayload.marital_status
      ∧ p2.occupation = exPayload.occupation
      ∧ p2.is_deceased = exPayload.is_deceased
      ∧ p2.deceased_date = exPayload.deceased_date
      ∧ p2.patient_id = exPatientA.patient_id
      ∧ p2.created_at = exPatientA.created_at :=
  update_overwrites_every_payload_field exDB "pa" exPayload 7 exPatientA rfl

/-- C5: the id-scoped endpoints get, update and delete answer HTTP 404 (with
no entity) precisely when no patient with the id exists; otherwise they return
the fetched, updated, or removed patient. -/
theorem endpoints_not_found_iff_absent
    (db : DB) (pid : String) (u : PatientUpdate) (now : Nat) :
    (Endpoints.read_patient db pid = .httpError 404 "Patient not found"
      ↔ ¬ ∃ p ∈ db.patients, p.patient_id = pid)
    ∧ ((Endpoints.update_patient db pid u now).1 = .httpError 404 "Patient not found"
      ↔ ¬ ∃ p ∈ db.patients, p.patient_id = pid)
    ∧ ((Endpoints.delete_patient db pid).1 = .httpError 404 "Patient not found"
      ↔ ¬ ∃ p ∈ db.patients, p.patient_id = pid)
    ∧ (∀ p0, PatientService.get_patient db pid = some p0 →
        Endpoints.read_patient db pid = .ok p0
        ∧ (Endpoints.delete_patient db pid).1 = .ok p0
        ∧ ∃ p2, (Endpoints.update_patient db pid u now).1 = .ok p2
            ∧ p2.patient_id = pid) := by
  cases hfind : PatientService.get_patient db pid with
  | none =>
    have hne := (PatientService.get_patient_none_iff db pid).mp hfind
    have hu := PatientService.update_patient_none db pid u now hfind
    have hd := PatientService.delete_patient_none db pid hfind
    refine ⟨⟨fun _ => hne, fun _ => ?_⟩, ⟨fun _ => hne, fun _ => ?_⟩,
      ⟨fun _ => hne, fun _ => ?_⟩, ?_⟩
    · simp [Endpoints.read_patient, hfind]
    · simp [Endpoints.update_patient, hu]
    · simp [Endpoints.delete_patient, hd]
    · intro p0 hp0
      simp at hp0
  | some p0 =>
    obtain ⟨hmem, hpid⟩ := PatientService.get_patient_some_spec db pid p0 hfind
    have hex : ∃ p ∈ db.patients, p.patient_id = pid := ⟨p0, hmem, hpid⟩
    have hu := PatientService.update_patient_some db pid u now p0 hfind
    have hd := PatientService.delete_patient_some db pid p0 hfind
    refine ⟨⟨fun hr => ?_, fun hne => absurd hex hne⟩,
      ⟨fun hr => ?_, fun hne => absurd hex hne⟩,
      ⟨fun hr => ?_, fun hne => absurd hex hne⟩, ?_⟩
    · simp [Endpoints.read_patient, hfind] at hr
    · simp [Endpoints.update_patient, hu] at hr
    · simp [Endpoints.delete_patient, hd] at hr
    · intro p1 hp1
      injection hp1 with hp1
      subst hp1
      refine ⟨?_, ?_, PatientService.applyPayload p0 u now, ?_, ?_⟩
      · simp [Endpoints.read_patient, hfind]
      · simp [Endpoints.delete_patient, hd]
      · simp [Endpoints.update_patient, hu]
      · rw [PatientService.applyPayload_patient_id]
        exact hpid

/-- Witness for C5: reading an absent id on the fixture store answers 404. -/
theorem endpoints_not_found_iff_absent_witness :
    Endpoints.read_patient exDB "zz" = .httpError 404 "Patient not found" :=
  (endpoints_not_found_iff_absent exDB "zz" exPayload 0).1.mpr (by decide)

/-- C6: every summary in a search result belongs to a stored patient, and its
email is the first associated contact record's email when at least one contact
record exists, and null when the patient has no contact records. -/
theorem search_email_first_contact
    (db : DB) (today : HDate) (q : PatientQuery) (hn : PatientService.pkNodup db)
    (s : PatientSummary)
    (hs : s ∈ PatientService.search_patients db today q) :
    ∃ p ∈ db.patients, s.patient_id = p.patient_id
      ∧ (db.contact_info.filter (fun c => c.patient_id == p.patient_id) = [] →
          s.email = none)
      ∧ (∀ c rest,
          db.contact_info.filter (fun c2 => c2.patient_id == p.patient_id)
            = c :: rest →
          s.email = c.email) := by
  rw [PatientService.search_patients_eq_filter db today q hn] at hs
  obtain ⟨x, hx, hxs⟩ := List.mem_map.mp hs
  refine ⟨x, (List.mem_filter.mp hx).1, ?_, ?_, ?_⟩
  · rw [← hxs]; rfl
  · intro hnil
    rw [← hxs]
    simp [PatientService.summaryOf, hnil]
  · intro c rest hcons
    rw [← hxs]
    simp [PatientService.summaryOf, hcons]

/-- Witness for C6: the summary of patient `pa` in the no-filter search result
carries the email of its (unique, hence first) contact row. -/
theorem search_email_first_contact_witness :
    ∃ p ∈ exDB.patients,
      (PatientService.summaryOf exDB exPatientA).patient_id = p.patient_id
      ∧ (exDB.contact_info.filter (fun c => c.patient_id == p.patient_id) = [] →
          (PatientService.summaryOf exDB exPatientA).email = none)
      ∧ (∀ c rest,
          exDB.contact_info.filter (fun c2 => c2.patient_id == p.patient_id)
            = c :: rest →
          (PatientService.summaryOf exDB exPatientA).email = c.email) :=
  search_email_first_contact exDB exToday {} (by decide)
    (PatientService.summaryOf exDB exPatientA) (by decide)
